import Mathlib

/-!
Shallow embedding of the `object_tracker` Python package
(`src/object_tracker/{query_log,changelog,tracker,mixin,entry}.py`).

Python values are modelled by `PyVal`; raising an exception is modelled by
the error branch of `Except` (or by `TResult.raised` for `Tracker` methods,
which also records the resulting tracker state).  Log entry timestamps
(`datetime.now(timezone.utc)` in the source) are modelled as `Nat` clock
readings passed in by the caller of `push`/`track`.
-/

set_option autoImplicit false

namespace ObjectTracker

/-- A Python value, compared with structural equality (`==`/`!=`). -/
inductive PyVal where
  | none
  | int (n : Int)
  | str (s : String)
  | bool (b : Bool)
deriving DecidableEq, Repr

/-- The exception classes of `object_tracker.exceptions` (module absent from
`src/`; only the three class names are imported by the sources). -/
inductive Exc where
  | initialStateMissing
  | invalidQueryLogOperation
  | invalidChangeLogOperation
deriving DecidableEq, Repr

/-- A log entry (`Entry` namedtuple of `query_log.py` / `changelog.py`):
`attr`, `old`, `new` plus the creation timestamp. -/
structure Entry where
  attr : String
  old : PyVal
  new : PyVal
  timestamp : Nat
deriving DecidableEq, Repr

/-- `Entry.is_a_change` from `changelog.py`: `self.old != self.new`. -/
def Entry.is_a_change (e : Entry) : Bool :=
  if e.old = e.new then false else true

/-! ## QueryLog (`query_log.py`) — the log class the `Tracker` instantiates -/

structure QueryLog where
  log : List Entry
  buffer : List Entry
deriving DecidableEq, Repr

namespace QueryLog

/-- `QueryLog.__init__`. -/
def init : QueryLog := ⟨[], []⟩

/-- `QueryLog._reset_buffer`: sets the buffer to `[]` (conditionally in the
source, with the same resulting state). -/
def reset_buffer (q : QueryLog) : QueryLog := { q with buffer := [] }

/-- `QueryLog._get_active_logs`: `self.buffer if self.buffer else self.log`. -/
def get_active_logs (q : QueryLog) : List Entry :=
  if q.buffer.isEmpty then q.log else q.buffer

/-- `QueryLog._filter`: `entry.attr in attrs if attrs else True`. -/
def filter_pred (e : Entry) (attrs : List String) : Bool :=
  if attrs.isEmpty then true else attrs.contains e.attr

/-- `QueryLog._process_filter` as reached from `filter`/`exclude` (where
`attrs` is always the argument tuple): rebuilds the buffer from `log`. -/
def process_filter (q : QueryLog) (attrs : List String) (exclude : Bool) : QueryLog :=
  if exclude then
    { q with buffer := q.log.filter (fun e => !(filter_pred e attrs)) }
  else
    { q with buffer := q.log.filter (fun e => filter_pred e attrs) }

/-- `QueryLog.filter`: raises `InvalidQueryLogOperationException` when called
with no attributes, otherwise stores the selection in the buffer. -/
def filter (q : QueryLog) (attrs : List String) : Except Exc QueryLog :=
  if attrs.isEmpty then Except.error Exc.invalidQueryLogOperation
  else Except.ok (q.process_filter attrs false)

/-- Possible normal return values of `QueryLog.exclude`: the (possibly
updated) log object itself, or — as written in the source — an exception
instance returned as an ordinary value, with `self` left unchanged. -/
inductive ExcludeReturn where
  | log (q : QueryLog)
  | excObj (e : Exc) (self : QueryLog)
deriving DecidableEq, Repr

/-- `QueryLog.exclude`: with no attributes the source executes
`return InvalidQueryLogOperationException(...)` — the exception object is
returned, nothing is raised and `self` is untouched. -/
def exclude (q : QueryLog) (attrs : List String) : Except Exc ExcludeReturn :=
  if attrs.isEmpty then Except.ok (ExcludeReturn.excObj Exc.invalidQueryLogOperation q)
  else Except.ok (ExcludeReturn.log (q.process_filter attrs true))

/-- `QueryLog.first`: `logs[0] if logs else None`, buffer reset. -/
def first (q : QueryLog) : Option Entry × QueryLog :=
  (q.get_active_logs.head?, q.reset_buffer)

/-- `QueryLog.last`: `logs[-1] if logs else None`, buffer reset. -/
def last (q : QueryLog) : Option Entry × QueryLog :=
  (q.get_active_logs.getLast?, q.reset_buffer)

/-- `QueryLog.fetch`: returns the active logs, buffer reset. -/
def fetch (q : QueryLog) : List Entry × QueryLog :=
  (q.get_active_logs, q.reset_buffer)

/-- `QueryLog.flush`: with a non-empty buffer keeps the log entries not equal
to any buffered one; with an empty buffer clears the log; buffer reset. -/
def flush (q : QueryLog) : QueryLog :=
  { log := if q.buffer.isEmpty then []
           else q.log.filter (fun e => !(q.buffer.contains e)),
    buffer := [] }

/-- `QueryLog.count`: `len` of the active logs, buffer reset. -/
def count (q : QueryLog) : Nat × QueryLog :=
  (q.get_active_logs.length, q.reset_buffer)

/-- `QueryLog.push`: appends `Entry(attr=attr, old=old, new=new)` — the
values are stored as given, without any copy. -/
def push (q : QueryLog) (timestamp : Nat) (attr : String) (old new : PyVal) : QueryLog :=
  { q with log := q.log ++ [⟨attr, old, new, timestamp⟩] }

/-- `QueryLog.get_unique_attributes`: the set of attrs in the active logs
(modelled as a deduplicated list), buffer reset. -/
def get_unique_attributes (q : QueryLog) : List String × QueryLog :=
  ((q.get_active_logs.map (fun e => e.attr)).dedup, q.reset_buffer)

/-- Match predicate of `get_last_change`/`get_first_change`:
`attr is None or log[i].attr == attr`. -/
def attr_match (attr : Option String) (e : Entry) : Bool :=
  match attr with
  | Option.none => true
  | Option.some a => e.attr == a

/-- `QueryLog.get_last_change`: scans the active logs backwards and returns
on the first match; the buffer is reset only when nothing matches (the
`return` inside the loop skips the reset). -/
def get_last_change (q : QueryLog) (attr : Option String) : Option Entry × QueryLog :=
  match q.get_active_logs.reverse.find? (attr_match attr) with
  | Option.some e => (Option.some e, q)
  | Option.none => (Option.none, q.reset_buffer)

/-- `QueryLog.get_first_change`: forward scan, same reset quirk. -/
def get_first_change (q : QueryLog) (attr : Option String) : Option Entry × QueryLog :=
  match q.get_active_logs.find? (attr_match attr) with
  | Option.some e => (Option.some e, q)
  | Option.none => (Option.none, q.reset_buffer)

/-- `QueryLog.has_changes`: `True if self.get_last_change(attr) else False`
(an `Entry` namedtuple is always truthy). -/
def has_changes (q : QueryLog) (attr : String) : Bool × QueryLog :=
  let r := q.get_last_change (Option.some attr)
  (r.1.isSome, r.2)

end QueryLog

/-! ## ChangeLog (`changelog.py`) -/

structure ChangeLog where
  log : List Entry
  buffer : List Entry
deriving DecidableEq, Repr

namespace ChangeLog

/-- `ChangeLog.__init__`. -/
def init : ChangeLog := ⟨[], []⟩

/-- `ChangeLog.reset_buffer`. -/
def reset_buffer (c : ChangeLog) : ChangeLog := { c with buffer := [] }

/-- `ChangeLog.get_selected_logs`: picks buffer if non-empty else log, then
resets the buffer; returns the picked list together with the new state. -/
def get_selected_logs (c : ChangeLog) : List Entry × ChangeLog :=
  ((if c.buffer.isEmpty then c.log else c.buffer), c.reset_buffer)

/-- `ChangeLog.apply_filters` as reached from `filter`/`exclude` (where
`attrs` is the non-empty argument tuple, so the sequence type check passes). -/
def apply_filters (c : ChangeLog) (attrs : List String) (exclude changes_only : Bool) :
    ChangeLog :=
  let c1 :=
    if attrs.isEmpty then c
    else if exclude then { c with buffer := c.log.filter (fun e => !(attrs.contains e.attr)) }
    else { c with buffer := c.log.filter (fun e => attrs.contains e.attr) }
  if changes_only then { c1 with buffer := c1.buffer.filter Entry.is_a_change } else c1

/-- `ChangeLog.filter`: raises `InvalidChangeLogOperationException` on an
empty attribute tuple. -/
def filter (c : ChangeLog) (attrs : List String) (changes_only : Bool) :
    Except Exc ChangeLog :=
  if attrs.isEmpty then Except.error Exc.invalidChangeLogOperation
  else Except.ok (c.apply_filters attrs false changes_only)

/-- Normal return values of `ChangeLog.exclude` (see `QueryLog.ExcludeReturn`). -/
inductive ExcludeReturn where
  | log (c : ChangeLog)
  | excObj (e : Exc) (self : ChangeLog)
deriving DecidableEq, Repr

/-- `ChangeLog.exclude`: with no attributes the source executes
`return InvalidChangeLogOperationException(...)` — returned, not raised. -/
def exclude (c : ChangeLog) (attrs : List String) (changes_only : Bool) :
    Except Exc ExcludeReturn :=
  if attrs.isEmpty then Except.ok (ExcludeReturn.excObj Exc.invalidChangeLogOperation c)
  else Except.ok (ExcludeReturn.log (c.apply_filters attrs true changes_only))

/-- `ChangeLog.first`. -/
def first (c : ChangeLog) : Option Entry × ChangeLog :=
  let r := c.get_selected_logs
  (r.1.head?, r.2)

/-- `ChangeLog.last`. -/
def last (c : ChangeLog) : Option Entry × ChangeLog :=
  let r := c.get_selected_logs
  (r.1.getLast?, r.2)

/-- `ChangeLog.all`. -/
def all (c : ChangeLog) : List Entry × ChangeLog :=
  c.get_selected_logs

/-- `ChangeLog.delete`: with a non-empty buffer keeps the log entries not
equal to any buffered one, else clears the log; buffer reset. -/
def delete (c : ChangeLog) : ChangeLog :=
  { log := if c.buffer.isEmpty then []
           else c.log.filter (fun e => !(c.buffer.contains e)),
    buffer := [] }

/-- `ChangeLog.count`: `len(self.get_selected_logs())`. -/
def count (c : ChangeLog) : Nat × ChangeLog :=
  let r := c.get_selected_logs
  (r.1.length, r.2)

/-- `ChangeLog.push`: appends `Entry(attr, deepcopy(old), deepcopy(new))`.
On the immutable embedded `PyVal` a deep copy has the same value; the
aliasing-sensitive behaviour of `deepcopy` is modelled in `HeapModel` below. -/
def push (c : ChangeLog) (timestamp : Nat) (attr : String) (old new : PyVal) : ChangeLog :=
  { c with log := c.log ++ [⟨attr, old, new, timestamp⟩] }

/-- `ChangeLog.get_unique_attributes`. -/
def get_unique_attributes (c : ChangeLog) : List String × ChangeLog :=
  let r := c.get_selected_logs
  ((r.1.map (fun e => e.attr)).dedup, r.2)

/-- Loop predicate of `get_first_log_for_attribute`: the entry is skipped
unless its attr matches (when one is given) and, with `only_changes`, unless
it is a change. -/
def glffa_pred (attr : Option String) (only_changes : Bool) (e : Entry) : Bool :=
  QueryLog.attr_match attr e && (!only_changes || e.is_a_change)

/-- `ChangeLog.get_first_log_for_attribute`: scans `self.log` (not the
selected logs) forwards, or backwards when `reverse`. -/
def get_first_log_for_attribute (c : ChangeLog) (attr : Option String)
    (reverse only_changes : Bool) : Option Entry :=
  if reverse then c.log.reverse.find? (glffa_pred attr only_changes)
  else c.log.find? (glffa_pred attr only_changes)

/-- `ChangeLog.has_changed`: compares the old value of the first log entry
for `attr` with the new value of the last one. -/
def has_changed (c : ChangeLog) (attr : String) : Bool :=
  let f := c.get_first_log_for_attribute (Option.some attr) false false
  let l := c.get_first_log_for_attribute (Option.some attr) true false
  match f, l with
  | Option.none, Option.none => false
  | Option.none, Option.some _ => true
  | Option.some _, Option.none => true
  | Option.some fe, Option.some le => decide (fe.old ≠ le.new)

end ChangeLog

/-! ## Python objects

A tracked object is modelled by its `__dict__`: an association list from
attribute names to values.  A plain object (no `__bool__`/`__len__`
override) is always truthy in Python, so `if obj:` on an optional object
is modelled as an `is-not-None` test. -/

structure PyObj where
  attrs : List (String × PyVal)
deriving DecidableEq, Repr

/-- `getattr(o, a, None)`: the attribute value, `None` when missing. -/
def PyObj.getattr (o : PyObj) (a : String) : PyVal :=
  match o.attrs.lookup a with
  | Option.some v => v
  | Option.none => PyVal.none

/-- Python dict equality of two `__dict__`s: same value (or absence) at
every key occurring in either. -/
def dictEq (a b : PyObj) : Bool :=
  ((a.attrs.map Prod.fst) ++ (b.attrs.map Prod.fst)).all
    (fun k => a.attrs.lookup k == b.attrs.lookup k)

/-! ## Tracker (`tracker.py`)

Observers are Python callables; an observer is modelled by an identifier
(`Nat`), and notifying is modelled by returning the list of calls made,
in order, as `(observer, attr, old, new)` tuples. -/

/-- One observer invocation `observer(attr, old, new)`. -/
abbrev Call := Nat × String × PyVal × PyVal

structure Tracker where
  log : QueryLog
  attributes : List String
  observers : List Nat
  auto_notify : Bool
  attribute_observer_map : List (String × List Nat)
  initial_state : Option PyObj
  active : Bool
deriving DecidableEq, Repr

/-- Python `x or []` on an optional list argument: `None` and `[]` are falsy
and give `[]`; a non-empty list is returned unchanged. -/
def pyOrList {γ : Type} (o : Option (List γ)) : List γ :=
  match o with
  | Option.some l => l
  | Option.none => []

/-- `Tracker.__init__`.  Note `self.active = active or True` always yields
`True`, and `deepcopy(initial_state) if initial_state else None` keeps the
argument exactly when it is a (truthy) object. -/
def mkTracker (initial_state : Option PyObj) (attributes : Option (List String))
    (observers : Option (List Nat))
    (attribute_observer_map : Option (List (String × List Nat)))
    (auto_notify : Bool) (active : Bool) : Tracker :=
  { log := QueryLog.init
    attributes := pyOrList attributes
    observers := pyOrList observers
    auto_notify := auto_notify
    attribute_observer_map := pyOrList attribute_observer_map
    initial_state := initial_state
    active := if active then active else true }

namespace Tracker

/-- `Tracker._call_observers`: calls each observer with `(attr, old, new)`. -/
def call_observers (observers : List Nat) (attr : String) (old new : PyVal) : List Call :=
  observers.map (fun o => (o, attr, old, new))

/-- `Tracker.notify_observers`: if `attribute_observer_map` is non-empty,
call `map.get(attr, [])` and return; otherwise, if the global `observers`
list is non-empty, call them unless an attribute allow-list is set and
`attr` is not in it. -/
def notify_observers (t : Tracker) (attr : String) (old new : PyVal) : List Call :=
  if !t.attribute_observer_map.isEmpty then
    call_observers ((t.attribute_observer_map.lookup attr).getD []) attr old new
  else if !t.observers.isEmpty then
    if !t.attributes.isEmpty && !t.attributes.contains attr then []
    else call_observers t.observers attr old new
  else []

/-- `Tracker.activate`: `if not active: active = True` (same final state). -/
def activate (t : Tracker) : Tracker := { t with active := true }

/-- `Tracker.deactivate`. -/
def deactivate (t : Tracker) : Tracker := { t with active := false }

/-- `Tracker.is_active`. -/
def is_active (t : Tracker) : Bool := t.active

/-- `Tracker.set_initial_state`: stores `deepcopy(obj)` (a value copy of the
object snapshot). -/
def set_initial_state (t : Tracker) (obj : PyObj) : Tracker :=
  { t with initial_state := Option.some obj }

/-- Result of a `Tracker` method: either an exception was raised or a value
is returned; both record the tracker state afterwards. -/
inductive TResult (β : Type) where
  | raised (e : Exc) (t : Tracker)
  | ok (b : β) (t : Tracker)
deriving DecidableEq, Repr

/-- The tracker state after a method call, raised or not. -/
def TResult.getTracker {β : Type} : TResult β → Tracker
  | TResult.raised _ t => t
  | TResult.ok _ t => t

/-- Whether the method call raised. -/
def TResult.isRaised {β : Type} : TResult β → Bool
  | TResult.raised _ _ => true
  | TResult.ok _ _ => false

/-- `Tracker.has_attribute_changed`: with an (always truthy) object it
raises `InitialStateMissingException` when no initial state is stored, else
compares `getattr(initial_state, attr, None)` with `getattr(obj, attr, None)`;
with `obj=None` it delegates to `self.log.has_changes(attr)`. -/
def has_attribute_changed (t : Tracker) (attr : String) (obj : Option PyObj) :
    TResult Bool :=
  match obj with
  | Option.some o =>
    match t.initial_state with
    | Option.none => TResult.raised Exc.initialStateMissing t
    | Option.some i => TResult.ok (decide (i.getattr attr ≠ o.getattr attr)) t
  | Option.none =>
    let r := t.log.has_changes attr
    TResult.ok r.1 { t with log := r.2 }

/-- `Tracker.has_changed`: with an object, raises when no initial state is
stored, else compares the two `__dict__`s; with `obj=None`, evaluates
`has_changes` on every unique attribute of the log and takes `any` (the
list comprehension evaluates all elements). -/
def has_changed (t : Tracker) (obj : Option PyObj) : TResult Bool :=
  match obj with
  | Option.some o =>
    match t.initial_state with
    | Option.none => TResult.raised Exc.initialStateMissing t
    | Option.some i => TResult.ok (!dictEq o i) t
  | Option.none =>
    let r := t.log.get_unique_attributes
    let fr := r.1.foldl
      (fun (acc : Bool × QueryLog) a =>
        let s := acc.2.has_changes a
        (acc.1 || s.1, s.2))
      (false, r.2)
    TResult.ok fr.1 { t with log := fr.2 }

/-- `Tracker.track`: raises when `raise_excp` and the tracker is inactive
(the source raises `InitialStateMissingException` with a "not active"
message); returns untouched when `old == new`; otherwise pushes the entry
and, when `auto_notify`, notifies the observers. -/
def track (t : Tracker) (timestamp : Nat) (attr : String) (old new : PyVal)
    (raise_excp : Bool) : TResult (List Call) :=
  if raise_excp && !t.active then TResult.raised Exc.initialStateMissing t
  else if old = new then TResult.ok [] t
  else
    TResult.ok
      (if t.auto_notify then t.notify_observers attr old new else [])
      { t with log := t.log.push timestamp attr old new }

/-- Modelled from the spec: `Tracker.should_track` is called by
`TrackerMixin.__track_changes` but is not defined anywhere under `src/`;
per the spec it returns `True` if `attributes` is unset (track-all mode)
or `attr` is a member of `attributes`. -/
def should_track (t : Tracker) (attr : String) : Bool :=
  t.attributes.isEmpty || t.attributes.contains attr

end Tracker

/-! ## Heap model for `copy.deepcopy` in `push`

Mutable caller-owned values are modelled as references into a heap of
integer cells; an entry field holds either immutable data or such a
reference, and is observed by reading through the current heap. -/

namespace HeapModel

/-- A value: immutable data, or a reference to a mutable heap cell. -/
inductive MVal where
  | imm (n : Int)
  | ref (addr : Nat)
deriving DecidableEq, Repr

/-- Observing a value through the heap. -/
def readMVal (heap : Nat → Int) : MVal → Int
  | MVal.imm n => n
  | MVal.ref a => heap a

/-- `copy.deepcopy` detaches a value from the caller's cells: the copy
observes the content at copy time, unaffected by later heap mutation. -/
def deepcopy (heap : Nat → Int) : MVal → MVal
  | MVal.imm n => MVal.imm n
  | MVal.ref a => MVal.imm (heap a)

/-- An in-place mutation of the caller's object at address `a`. -/
def writeHeap (heap : Nat → Int) (a : Nat) (v : Int) : Nat → Int :=
  fun x => if x = a then v else heap x

structure EntryM where
  attr : String
  old : MVal
  new : MVal
deriving DecidableEq, Repr

/-- The entry built by `ChangeLog.push`:
`Entry(attr=attr, old=copy.deepcopy(old), new=copy.deepcopy(new))`. -/
def changelog_push_entry (heap : Nat → Int) (attr : String) (old new : MVal) : EntryM :=
  ⟨attr, deepcopy heap old, deepcopy heap new⟩

/-- The entry built by `QueryLog.push`:
`Entry(attr=attr, old=old, new=new)` — no copy. -/
def querylog_push_entry (attr : String) (old new : MVal) : EntryM :=
  ⟨attr, old, new⟩

end HeapModel

/-! ## Concrete instances used by counterexamples and witnesses -/

/-- A fresh default tracker. -/
def freshTracker : Tracker :=
  mkTracker Option.none Option.none Option.none Option.none true true

/-- The tracker after `track('name', 'A', 'B')` on a fresh tracker. -/
def trackAB : Tracker :=
  (freshTracker.track 0 "name" (PyVal.str "A") (PyVal.str "B") true).getTracker

/-- The tracker after `track('name', 'A', 'B')` then `track('name', 'B', 'A')`. -/
def trackABBA : Tracker :=
  (trackAB.track 1 "name" (PyVal.str "B") (PyVal.str "A") true).getTracker

/-- A tracker with a global observer and an attribute allow-list
(`Tracker(observers=[o0], attributes=['name'])`). -/
def allowListTracker : Tracker :=
  mkTracker Option.none (Option.some ["name"]) (Option.some [0]) Option.none true true

/-- Sample entries over distinct attributes. -/
def entryA : Entry := ⟨"a", PyVal.int 1, PyVal.int 2, 0⟩

def entryB : Entry := ⟨"b", PyVal.int 3, PyVal.int 4, 1⟩

/-- A query log holding `entryA, entryB` with `entryA` selected in the buffer. -/
def bufferedQLog : QueryLog := ⟨[entryA, entryB], [entryA]⟩

/-- A change log holding `entryA, entryB` with `entryA` selected in the buffer. -/
def bufferedCLog : ChangeLog := ⟨[entryA, entryB], [entryA]⟩

/-! # Theorems -/

/-- Claim C4: for every log state, `filter()` with zero attributes raises the
InvalidOperation error; but `exclude()` with zero attributes does not raise —
the source returns the exception instance as an ordinary value (the call
returns normally, with log and buffer unchanged), in both `QueryLog` and
`ChangeLog`. -/
theorem c4_filter_raises_exclude_returns :
    ∀ (q : QueryLog) (c : ChangeLog) (co : Bool),
      q.filter [] = Except.error Exc.invalidQueryLogOperation ∧
      q.exclude [] = Except.ok (QueryLog.ExcludeReturn.excObj Exc.invalidQueryLogOperation q) ∧
      c.filter [] co = Except.error Exc.invalidChangeLogOperation ∧
      c.exclude [] co =
        Except.ok (ChangeLog.ExcludeReturn.excObj Exc.invalidChangeLogOperation c) := by
  intro q c co
  exact ⟨rfl, rfl, rfl, rfl⟩

/-- Claim C5: on an active tracker, `track(attr, old, new)` with `old == new`
is a no-op — the tracker (hence the log) is returned unchanged and no
observer call is made — and consequently any sequence of such calls leaves
the tracker unchanged. -/
theorem c5_track_equal_values_noop :
    (∀ (t : Tracker) (ts : Nat) (attr : String) (v : PyVal) (re : Bool),
      t.active = true → t.track ts attr v v re = Tracker.TResult.ok [] t) ∧
    (∀ (t : Tracker) (l : List (Nat × String × PyVal)),
      t.active = true →
      l.foldl (fun s p => (s.track p.1 p.2.1 p.2.2 p.2.2 true).getTracker) t = t) := by
  constructor
  · intro t ts attr v re h
    simp [Tracker.track, h]
  · intro t l h
    induction l with
    | nil => rfl
    | cons p rest ih =>
      simp only [List.foldl_cons, Tracker.track, h]
      simpa [Tracker.track, h, Tracker.TResult.getTracker] using ih

/-- Claim C5 witness: a concrete no-op call on a fresh (active) tracker. -/
theorem c5_witness :
    freshTracker.track 7 "name" (PyVal.str "A") (PyVal.str "A") true =
      Tracker.TResult.ok [] freshTracker :=
  c5_track_equal_values_noop.1 freshTracker 7 "name" (PyVal.str "A") true rfl

/-- Claim C6: every read-terminal operation (`fetch`/`all`, `first`, `last`,
`count`) and `flush`/`delete` leaves the buffer empty, so a subsequent
`fetch()`/`all()` with no intervening filter returns the full log. -/
theorem c6_terminal_ops_clear_buffer :
    (∀ q : QueryLog,
      (q.first).2.buffer = [] ∧ (q.last).2.buffer = [] ∧ (q.fetch).2.buffer = [] ∧
      (q.count).2.buffer = [] ∧ (q.flush).buffer = []) ∧
    (∀ c : ChangeLog,
      (c.first).2.buffer = [] ∧ (c.last).2.buffer = [] ∧ (c.all).2.buffer = [] ∧
      (c.count).2.buffer = [] ∧ (c.delete).buffer = []) ∧
    (∀ q : QueryLog, q.buffer = [] → (q.fetch).1 = q.log ∧ (q.fetch).2.log = q.log) ∧
    (∀ c : ChangeLog, c.buffer = [] → (c.all).1 = c.log ∧ (c.all).2.log = c.log) := by
  refine ⟨fun q => ⟨rfl, rfl, rfl, rfl, rfl⟩, fun c => ⟨rfl, rfl, rfl, rfl, rfl⟩, ?_, ?_⟩
  · intro q h
    simp [QueryLog.fetch, QueryLog.get_active_logs, QueryLog.reset_buffer, h]
  · intro c h
    simp [ChangeLog.all, ChangeLog.get_selected_logs, ChangeLog.reset_buffer, h]

/-- Claim C6 witness: after `first()` on a log with a buffered selection, a
`fetch()` returns the full log. -/
theorem c6_witness :
    ((bufferedQLog.first).2.fetch).1 = (bufferedQLog.first).2.log :=
  ((c6_terminal_ops_clear_buffer.2.2.1 (bufferedQLog.first).2
    (c6_terminal_ops_clear_buffer.1 bufferedQLog).1)).1

/-- Claim C10: for every combination of constructor arguments, including
`active=False`, a fresh tracker has `active = True` (the source sets
`active or True`), so `is_active()` is `True` and `track` never raises the
not-active error right after construction; among the operations only
`deactivate` sets the flag to `False`. -/
theorem c10_constructor_always_active :
    (∀ (i : Option PyObj) (a : Option (List String)) (o : Option (List Nat))
       (m : Option (List (String × List Nat))) (an ac : Bool),
      (mkTracker i a o m an ac).active = true ∧
      (mkTracker i a o m an ac).is_active = true ∧
      (∀ (ts : Nat) (attr : String) (ov nv : PyVal) (re : Bool),
        ((mkTracker i a o m an ac).track ts attr ov nv re).isRaised = false)) ∧
    (∀ t : Tracker,
      (t.activate).active = true ∧ (t.deactivate).active = false ∧
      (∀ o : PyObj, (t.set_initial_state o).active = t.active) ∧
      (∀ (ts : Nat) (attr : String) (ov nv : PyVal) (re : Bool),
        ((t.track ts attr ov nv re).getTracker).active = t.active)) := by
  constructor
  · intro i a o m an ac
    refine ⟨by cases ac <;> rfl, by cases ac <;> rfl, ?_⟩
    intro ts attr ov nv re
    have hac : (mkTracker i a o m an ac).active = true := by cases ac <;> rfl
    simp only [Tracker.track, hac]
    by_cases hov : ov = nv <;> simp [hov, Tracker.TResult.isRaised]
  · intro t
    refine ⟨rfl, rfl, fun o => rfl, ?_⟩
    intro ts attr ov nv re
    simp only [Tracker.track]
    by_cases hra : re && !t.active <;> by_cases hov : ov = nv <;>
      simp [hra, hov, Tracker.TResult.getTracker, QueryLog.push]

/-- Claim C8 (amended): `push` appends exactly one entry at the end of the
log with the given attr/old/new and leaves the buffer unchanged, in both
logs; `ChangeLog.push` stores deep copies, whose observed content is
unaffected by later heap mutation, but `QueryLog.push` (the log the Tracker
uses) stores the caller's values as given, so mutating a referenced cell
changes the observed stored history. -/
theorem c8_push_appends_one_entry :
    (∀ (q : QueryLog) (ts : Nat) (a : String) (o n : PyVal),
      (q.push ts a o n).log = q.log ++ [⟨a, o, n, ts⟩] ∧
      (q.push ts a o n).buffer = q.buffer) ∧
    (∀ (c : ChangeLog) (ts : Nat) (a : String) (o n : PyVal),
      (c.push ts a o n).log = c.log ++ [⟨a, o, n, ts⟩] ∧
      (c.push ts a o n).buffer = c.buffer) ∧
    (∀ (heap heap2 : Nat → Int) (a : String) (o n : HeapModel.MVal),
      HeapModel.readMVal heap2 ((HeapModel.changelog_push_entry heap a o n).old) =
        HeapModel.readMVal heap o ∧
      HeapModel.readMVal heap2 ((HeapModel.changelog_push_entry heap a o n).new) =
        HeapModel.readMVal heap n) ∧
    (∀ (heap : Nat → Int) (addr : Nat) (v : Int) (a : String) (n : HeapModel.MVal),
      HeapModel.readMVal (HeapModel.writeHeap heap addr v)
        ((HeapModel.querylog_push_entry a (HeapModel.MVal.ref addr) n).old) = v) := by
  refine ⟨fun q ts a o n => ⟨rfl, rfl⟩, fun c ts a o n => ⟨rfl, rfl⟩, ?_, ?_⟩
  · intro heap heap2 a o n
    constructor
    · cases o <;> rfl
    · cases n <;> rfl
  · intro heap addr v a n
    simp [HeapModel.readMVal, HeapModel.querylog_push_entry, HeapModel.writeHeap]

/-- Claim C8 counterexample: `QueryLog.push` does not deep-copy. The pushed
old value observes `0` at push time, yet after an in-place mutation of the
caller's cell the stored history observes `5`. -/
theorem c8_counterexample :
    HeapModel.readMVal (fun _ => 0) (HeapModel.MVal.ref 0) = 0 ∧
    HeapModel.readMVal (HeapModel.writeHeap (fun _ => 0) 0 5)
      ((HeapModel.querylog_push_entry "x" (HeapModel.MVal.ref 0)
        (HeapModel.MVal.imm 1)).old) = 5 :=
  ⟨rfl, rfl⟩

/-- Claim C2: `should_track(attr)` (modelled from the spec, see the
definition) is `True` exactly when the constructed tracker's allow-list is
unset — the `attributes` argument was `None` or empty, both normalised to
`[]` by `attributes or []` — or `attr` is a member of it; in particular for
`Tracker(attributes=['name'])` it accepts `'name'` and rejects `'age'`. -/
theorem c2_should_track_allow_list :
    (∀ (i : Option PyObj) (a : Option (List String)) (o : Option (List Nat))
       (m : Option (List (String × List Nat))) (an ac : Bool) (attr : String),
      (mkTracker i a o m an ac).should_track attr = true ↔
        (pyOrList a = [] ∨ attr ∈ pyOrList a)) ∧
    (allowListTracker.should_track "name" = true ∧
     allowListTracker.should_track "age" = false) := by
  constructor
  · intro i a o m an ac attr
    simp [mkTracker, Tracker.should_track, List.isEmpty_iff, List.contains, List.elem_eq_mem]
  · exact ⟨rfl, rfl⟩

/-- Claim C3 (amended): `notify_observers` consults the two registries
exclusively: when `attribute_observer_map` is non-empty only the observers
mapped to `attr` are invoked and the method returns, so the global observers
do not fire; the global observers fire only when the map is empty, and then
only if the attribute allow-list is unset or contains `attr`. -/
theorem c3_notify_observers_exclusive :
    ∀ (t : Tracker) (attr : String) (old new : PyVal),
      (t.attribute_observer_map ≠ [] →
        t.notify_observers attr old new =
          Tracker.call_observers ((t.attribute_observer_map.lookup attr).getD [])
            attr old new) ∧
      (t.attribute_observer_map = [] → (t.attributes = [] ∨ attr ∈ t.attributes) →
        t.notify_observers attr old new =
          Tracker.call_observers t.observers attr old new) ∧
      (t.attribute_observer_map = [] → attr ∉ t.attributes → t.attributes ≠ [] →
        t.notify_observers attr old new = []) := by
  intro t attr old new
  refine ⟨?_, ?_, ?_⟩
  · intro hmap
    simp [Tracker.notify_observers, List.isEmpty_iff, hmap]
  · intro hmap hallow
    by_cases hobs : t.observers = []
    · simp [Tracker.notify_observers, List.isEmpty_iff, hmap, hobs, Tracker.call_observers]
    · rcases hallow with h | h
      · simp [Tracker.notify_observers, List.isEmpty_iff, hmap, hobs, h]
      · simp [Tracker.notify_observers, List.isEmpty_iff, hmap, hobs,
          List.contains, List.elem_eq_mem, h]
  · intro hmap hnot hne
    by_cases hobs : t.observers = [] <;>
      simp [Tracker.notify_observers, List.isEmpty_iff, hmap, hobs, hne,
        List.contains, List.elem_eq_mem, hnot]

/-- Claim C3 counterexample: a tracker with a non-empty global observer list
(`observers=[0]`) and allow-list `['name']`; on a change to `'age'` the
global observer is not invoked at all — attribute filtering does happen at
that stage, contradicting the claim. -/
theorem c3_counterexample :
    allowListTracker.observers = [0] ∧
    allowListTracker.notify_observers "age" PyVal.none (PyVal.int 1) = [] :=
  ⟨rfl, rfl⟩

/-- Claim C3 witness: with an empty map and no allow-list, a concrete global
observer list is invoked with `(attr, old, new)`. -/
theorem c3_witness :
    freshTracker.notify_observers "x" PyVal.none PyVal.none = [] ∧
    (mkTracker Option.none Option.none (Option.some [5]) Option.none true
        true).notify_observers "x" (PyVal.int 1) (PyVal.int 2) =
      [(5, "x", PyVal.int 1, PyVal.int 2)] :=
  ⟨(c3_notify_observers_exclusive freshTracker "x" PyVal.none PyVal.none).2.1 rfl
      (Or.inl rfl),
   (c3_notify_observers_exclusive
      (mkTracker Option.none Option.none (Option.some [5]) Option.none true true)
      "x" (PyVal.int 1) (PyVal.int 2)).2.1 rfl (Or.inl rfl)⟩

/-- Claim C9: with an object argument (objects are modelled as plain
attribute records, hence truthy), `has_changed(obj)` and
`has_attribute_changed(attr, obj)` raise `InitialStateMissing` exactly when
no snapshot is stored; with a snapshot, `has_attribute_changed` compares
`getattr(initial_state, attr, None)` with `getattr(obj, attr, None)`; the
tracker state is returned unchanged either way; the snapshot is exactly the
constructor's `initial_state` argument, is set by `set_initial_state`, and
is preserved by the other operations. -/
theorem c9_snapshot_queries :
    (∀ (t : Tracker) (attr : String) (o : PyObj),
      (t.has_attribute_changed attr (Option.some o) =
          Tracker.TResult.raised Exc.initialStateMissing t ↔
        t.initial_state = Option.none) ∧
      (t.has_changed (Option.some o) =
          Tracker.TResult.raised Exc.initialStateMissing t ↔
        t.initial_state = Option.none) ∧
      (∀ i : PyObj, t.initial_state = Option.some i →
        t.has_attribute_changed attr (Option.some o) =
          Tracker.TResult.ok (decide (i.getattr attr ≠ o.getattr attr)) t) ∧
      (t.has_attribute_changed attr (Option.some o)).getTracker = t ∧
      (t.has_changed (Option.some o)).getTracker = t) ∧
    (∀ (i : Option PyObj) (a : Option (List String)) (o : Option (List Nat))
       (m : Option (List (String × List Nat))) (an ac : Bool),
      (mkTracker i a o m an ac).initial_state = i) ∧
    (∀ (t : Tracker) (o : PyObj),
      (t.set_initial_state o).initial_state = Option.some o) ∧
    (∀ t : Tracker,
      (t.activate).initial_state = t.initial_state ∧
      (t.deactivate).initial_state = t.initial_state) ∧
    (∀ (t : Tracker) (ts : Nat) (attr : String) (ov nv : PyVal) (re : Bool),
      ((t.track ts attr ov nv re).getTracker).initial_state = t.initial_state) := by
  refine ⟨?_, fun i a o m an ac => rfl, fun t o => rfl, fun t => ⟨rfl, rfl⟩, ?_⟩
  · intro t attr o
    refine ⟨?_, ?_, ?_, ?_, ?_⟩
    · cases h : t.initial_state <;>
        simp [Tracker.has_attribute_changed, h]
    · cases h : t.initial_state <;>
        simp [Tracker.has_changed, h]
    · intro i h
      simp [Tracker.has_attribute_changed, h]
    · cases h : t.initial_state <;>
        simp [Tracker.has_attribute_changed, h, Tracker.TResult.getTracker]
    · cases h : t.initial_state <;>
        simp [Tracker.has_changed, h, Tracker.TResult.getTracker]
  · intro t ts attr ov nv re
    simp only [Tracker.track]
    by_cases hra : re && !t.active <;> by_cases hov : ov = nv <;>
      simp [hra, hov, Tracker.TResult.getTracker]

/-- Claim C9 witness: a fresh tracker (no snapshot) raises on a snapshot
query; after `set_initial_state` the same query compares the attribute
values. -/
theorem c9_witness :
    freshTracker.has_attribute_changed "name" (Option.some ⟨[("name", PyVal.str "A")]⟩) =
      Tracker.TResult.raised Exc.initialStateMissing freshTracker ∧
    (freshTracker.set_initial_state ⟨[("name", PyVal.str "B")]⟩).has_attribute_changed
        "name" (Option.some ⟨[("name", PyVal.str "A")]⟩) =
      Tracker.TResult.ok true (freshTracker.set_initial_state ⟨[("name", PyVal.str "B")]⟩) :=
  ⟨((c9_snapshot_queries.1 freshTracker "name" ⟨[("name", PyVal.str "A")]⟩).1).2 rfl,
   (c9_snapshot_queries.1 (freshTracker.set_initial_state ⟨[("name", PyVal.str "B")]⟩)
      "name" ⟨[("name", PyVal.str "A")]⟩).2.2.1 ⟨[("name", PyVal.str "B")]⟩ rfl⟩

/-- Claim C7: with a non-empty buffer, `flush()`/`delete()` removes from the
log exactly the entries (by entry equality) present in the buffer: the new
log is a sublist of the old one (original insertion order intact) and holds
exactly the old entries not in the buffer; the buffer is cleared.  With an
empty buffer the whole log is cleared. -/
theorem c7_delete_removes_buffered :
    (∀ q : QueryLog, q.buffer ≠ [] →
      (q.flush).log.Sublist q.log ∧
      (∀ e : Entry, e ∈ (q.flush).log ↔ e ∈ q.log ∧ e ∉ q.buffer) ∧
      (q.flush).buffer = []) ∧
    (∀ q : QueryLog, q.buffer = [] → (q.flush).log = [] ∧ (q.flush).buffer = []) ∧
    (∀ c : ChangeLog, c.buffer ≠ [] →
      (c.delete).log.Sublist c.log ∧
      (∀ e : Entry, e ∈ (c.delete).log ↔ e ∈ c.log ∧ e ∉ c.buffer) ∧
      (c.delete).buffer = []) ∧
    (∀ c : ChangeLog, c.buffer = [] → (c.delete).log = [] ∧ (c.delete).buffer = []) := by
  refine ⟨?_, ?_, ?_, ?_⟩
  · intro q h
    have hne : q.buffer.isEmpty = false := by
      simpa [List.isEmpty_iff] using h
    refine ⟨?_, ?_, rfl⟩
    · simp only [QueryLog.flush, hne, Bool.false_eq_true, if_false]
      exact List.filter_sublist q.log
    · intro e
      simp [QueryLog.flush, hne, List.mem_filter, List.contains, List.elem_eq_mem]
  · intro q h
    have he : q.buffer.isEmpty = true := by simp [List.isEmpty_iff, h]
    exact ⟨by simp [QueryLog.flush, he], rfl⟩
  · intro c h
    have hne : c.buffer.isEmpty = false := by
      simpa [List.isEmpty_iff] using h
    refine ⟨?_, ?_, rfl⟩
    · simp only [ChangeLog.delete, hne, Bool.false_eq_true, if_false]
      exact List.filter_sublist c.log
    · intro e
      simp [ChangeLog.delete, hne, List.mem_filter, List.contains, List.elem_eq_mem]
  · intro c h
    have he : c.buffer.isEmpty = true := by simp [List.isEmpty_iff, h]
    exact ⟨by simp [ChangeLog.delete, he], rfl⟩

/-- Claim C7 witness: deleting with `entryA` buffered removes exactly
`entryA` and keeps `entryB`, then clears the buffer. -/
theorem c7_witness :
    entryB ∈ (bufferedQLog.flush).log ∧ entryA ∉ (bufferedQLog.flush).log ∧
    (bufferedQLog.flush).buffer = [] := by
  have h := c7_delete_removes_buffered.1 bufferedQLog (by decide)
  refine ⟨(h.2.1 entryB).mpr (by decide), fun hmem => ?_, h.2.2⟩
  have := (h.2.1 entryA).mp hmem
  exact this.2 (by decide)

/-- The loop predicate of `get_first_log_for_attribute` with a given `attr`
and `only_changes=False` just matches the attribute. -/
theorem glffa_pred_attr_only (attr : String) :
    ChangeLog.glffa_pred (Option.some attr) false = fun e => e.attr == attr := by
  funext e
  simp [ChangeLog.glffa_pred, QueryLog.attr_match]

/-- Claim C1 (amended): `ChangeLog.has_changed` is the net-effect check —
`False` when the log holds no entry for `attr`, otherwise `True` iff the old
value of the earliest entry for `attr` differs from the new value of the
latest one (so a single entry yields its own `old != new`, not
unconditionally `True`); but the query reached via
`Tracker.has_attribute_changed` with no obj is `QueryLog.has_changes`, which
returns `True` iff the (active) log holds at least one entry for `attr`. -/
theorem c1_change_query_net_effect :
    (∀ (c : ChangeLog) (attr : String),
      (c.log.filter (fun e => e.attr == attr) = [] → c.has_changed attr = false) ∧
      (∀ f l : Entry,
        (c.log.filter (fun e => e.attr == attr)).head? = Option.some f →
        (c.log.filter (fun e => e.attr == attr)).getLast? = Option.some l →
        c.has_changed attr = decide (f.old ≠ l.new))) ∧
    (∀ (q : QueryLog) (attr : String),
      ((q.has_changes attr).1 = true ↔ ∃ e ∈ q.get_active_logs, e.attr = attr)) := by
  refine ⟨?_, ?_⟩
  · intro c attr
    have hfirst : c.get_first_log_for_attribute (Option.some attr) false false
        = (c.log.filter (fun e => e.attr == attr)).head? := by
      simp [ChangeLog.get_first_log_for_attribute, glffa_pred_attr_only, List.filter_head?]
    have hlast : c.get_first_log_for_attribute (Option.some attr) true false
        = (c.log.filter (fun e => e.attr == attr)).getLast? := by
      simp [ChangeLog.get_first_log_for_attribute, glffa_pred_attr_only,
        List.filter_getLast?]
    constructor
    · intro hnil
      simp [ChangeLog.has_changed, hfirst, hlast, hnil]
    · intro f l hf hl
      simp [ChangeLog.has_changed, hfirst, hlast, hf, hl]
  · intro q attr
    have hval : (q.has_changes attr).1
        = (q.get_active_logs.reverse.find?
            (QueryLog.attr_match (Option.some attr))).isSome := by
      rw [QueryLog.has_changes, QueryLog.get_last_change]
      rcases q.get_active_logs.reverse.find? (QueryLog.attr_match (Option.some attr)) with
        _ | e <;> rfl
    rw [hval, List.find?_isSome]
    simp [List.mem_reverse, QueryLog.attr_match]

/-- Claim C1 counterexample: the scenario `track('name','A','B')` then
`track('name','B','A')` on a fresh tracker records both entries, and
`has_attribute_changed('name')` with no obj returns `True` — the claim says
it returns `False` (net effect `A == A`). -/
theorem c1_counterexample :
    trackABBA.log.log.map (fun e => (e.attr, e.old, e.new)) =
      [("name", PyVal.str "A", PyVal.str "B"),
       ("name", PyVal.str "B", PyVal.str "A")] ∧
    trackABBA.has_attribute_changed "name" Option.none =
      Tracker.TResult.ok true trackABBA :=
  ⟨rfl, rfl⟩

/-- Claim C1 witness: on the two-entry `A→B, B→A` change log the net-effect
check yields `False`, while the existence check of the Tracker-reached query
yields `True` on the same history. -/
theorem c1_witness :
    (⟨[⟨"name", PyVal.str "A", PyVal.str "B", 0⟩,
       ⟨"name", PyVal.str "B", PyVal.str "A", 1⟩], []⟩ : ChangeLog).has_changed "name"
        = false ∧
    (trackABBA.log.has_changes "name").1 = true := by
  constructor
  · have h := ((c1_change_query_net_effect.1
      ⟨[⟨"name", PyVal.str "A", PyVal.str "B", 0⟩,
        ⟨"name", PyVal.str "B", PyVal.str "A", 1⟩], []⟩ "name").2
      ⟨"name", PyVal.str "A", PyVal.str "B", 0⟩
      ⟨"name", PyVal.str "B", PyVal.str "A", 1⟩ rfl rfl)
    rw [h]
    decide
  · exact (c1_change_query_net_effect.2 trackABBA.log "name").mpr (by decide)

end ObjectTracker
